import Mathlib

/-!
Shallow embedding of `sample.go` from the Azure sample repository
`network-go-manage-network-security-group` (the flag-driven program variant:
exit-code enumeration, `getUniqueResourceGroupName`, `executeWithStatus`,
`createResourceGroup`, `createVirtualNetwork`, `createNetworkSecurityGroup`,
`deleteResourceGroup`, `validateParameters`, `init` and `main`).

Remote calls are modelled by an environment `Env` fixing the outcome of every
remote operation, and a world `W` recording the trace of issued remote calls
together with the lines written to the status writer and to stderr.
-/

namespace NsgSample

/-- Byte-wise comparison of two strings as lists of characters, modelling Go's
built-in string ordering used by `sort.Strings` (identical on ASCII data). -/
def charListLe : List Char → List Char → Bool
  | [], _ => true
  | _ :: _, [] => false
  | a :: as, b :: bs => if a = b then charListLe as bs else decide (a.toNat < b.toNat)

/-- `strLe a b` holds when `a` sorts no later than `b` under Go's string order. -/
def strLe (a b : String) : Bool := charListLe a.data b.data

/-- Insert a string into a sorted list, keeping it sorted under `strLe`. -/
def insertSorted (x : String) : List String → List String
  | [] => [x]
  | y :: ys => if strLe x y then x :: y :: ys else y :: insertSorted x ys

/-- Sorting a list of strings, modelling `sort.Strings`. On a duplicate-free
list this yields the same result as any correct sort for the total order. -/
def sortStrings : List String → List String
  | [] => []
  | x :: xs => insertSorted x (sortStrings xs)

/-- `strStartsWith p s` models Go's `strings.HasPrefix(s, p)`. -/
def strStartsWith (p s : String) : Bool := p.data.isPrefixOf s.data

/-- The constant `resourceGroupNamePrefix` from `getUniqueResourceGroupName`. -/
def rgNameStem : String := "networkSecurityGroupSample"

/-- The candidate scan inside `getUniqueResourceGroupName`: Go's
`for i := 0; i < count; i++ { if seen[i+1] != prefix+i { return prefix+i } }`
followed by `return prefix + (len(seen)-1)`, expressed on the tail of the
sorted list (element `i` of the tail is `seen[i+1]`). -/
def scanCandidates : List String → Nat → String
  | [], i => rgNameStem ++ toString i
  | c :: rest, i =>
    if c ≠ rgNameStem ++ toString i then rgNameStem ++ toString i
    else scanCandidates rest (i + 1)

/-- The pure core of `getUniqueResourceGroupName`: given the listed resource
group names, filter those sharing the sample's name stem, sort them, and pick
a candidate exactly as the Go loop does. -/
def chooseUniqueName (names : List String) : String :=
  let seen := names.filter (fun n => strStartsWith rgNameStem n)
  match sortStrings seen with
  | [] => rgNameStem
  | first :: rest =>
    if first = rgNameStem then scanCandidates rest 0 else rgNameStem

/-- `getUniqueResourceGroupName`, as a function of the listing call's error,
status code and returned names: a listing error is surfaced verbatim, a
non-200 status yields the "Bad response" error, otherwise the scan runs. -/
def getUniqueResourceGroupName (listErr : Option String) (listStatus : Nat)
    (names : List String) : Except String String :=
  match listErr with
  | some e => Except.error e
  | none =>
    if listStatus = 200 then Except.ok (chooseUniqueName names)
    else Except.error ("Bad response: " ++ toString listStatus)

/-- A remote call event, identified by operation and arguments. -/
inductive Call where
  | listGroups : Call
  | createGroup (name : String) : Call
  | deleteGroup (name : String) : Call
  | createVNet (rg name : String) : Call
  | createNSG (rg name : String) : Call
  | getNSG (rg name : String) : Call
  | createSubnet (rg vnet name : String) : Call
  | createRule (rg nsg name : String) : Call
deriving DecidableEq, Repr

/-- An `autorest.Response`, reduced to the fields the program reads:
whether an http response is present at all, its status code, and status text. -/
structure Response where
  hasResp : Bool
  statusCode : Nat
  status : String
deriving DecidableEq, Repr

/-- The outcome of one remote operation: a response and an optional error. -/
structure Outcome where
  resp : Response
  err : Option String
deriving DecidableEq, Repr

/-- The observable world: remote calls issued so far, lines written through
the status writer `output`, and lines written to stderr. -/
structure W where
  calls : List Call
  out : List String
  errs : List String
deriving DecidableEq, Repr

def W.emitOut (w : W) (s : String) : W := { w with out := w.out ++ [s] }

def W.emitErr (w : W) (s : String) : W := { w with errs := w.errs ++ [s] }

def W.call (w : W) (c : Call) : W := { w with calls := w.calls ++ [c] }

@[simp] theorem W.calls_emitOut (w : W) (s : String) : (w.emitOut s).calls = w.calls := rfl
@[simp] theorem W.calls_emitErr (w : W) (s : String) : (w.emitErr s).calls = w.calls := rfl
@[simp] theorem W.calls_call (w : W) (c : Call) : (w.call c).calls = w.calls ++ [c] := rfl
@[simp] theorem W.out_emitOut (w : W) (s : String) : (w.emitOut s).out = w.out ++ [s] := rfl
@[simp] theorem W.out_emitErr (w : W) (s : String) : (w.emitErr s).out = w.out := rfl
@[simp] theorem W.out_call (w : W) (c : Call) : (w.call c).out = w.out := rfl

/-- `getFailureStatus(err, response)`: status-code block when a response is
present, error block when an error is present, otherwise an unknown-error
marker. -/
def getFailureStatus (err : Option String) (resp : Response) : String :=
  let r1 := if resp.hasResp then
      "\tStatus Code: " ++ toString resp.statusCode ++ "\n\tStatus: " ++ resp.status ++ "\n"
    else ""
  let r2 := r1 ++ (match err with
    | some e => "\tError: " ++ e ++ "\n"
    | none => "")
  if r2 = "" then "An unknown error occurred.\n" else r2

/-- `executeWithStatus(operation, message)`: print the message marker, invoke
the operation exactly once, print SUCCESS when the error is absent and the
status code is 200, otherwise print FAILED and the failure detail, and hand
the operation's response and error back unchanged. -/
def executeWithStatus (operation : W → (Response × Option String) × W)
    (message : String) (w : W) : (Response × Option String) × W :=
  let w1 := w.emitOut (message ++ "...")
  let ((resp, err), w2) := operation w1
  if err = none ∧ resp.statusCode = 200 then ((resp, err), w2.emitOut "SUCCESS")
  else ((resp, err), (w2.emitOut "FAILED").emitErr (getFailureStatus err resp))

/-- An operation whose remote outcome is fixed by the environment: invoking it
issues the call `c` and yields the outcome `o`. -/
def remoteOp (c : Call) (o : Outcome) : W → (Response × Option String) × W :=
  fun w => ((o.resp, o.err), w.call c)

/-- An operation that returns a fixed outcome without any observable effect;
used to quantify over all operation outcomes. -/
def pureOp (resp : Response) (err : Option String) :
    W → (Response × Option String) × W :=
  fun w => ((resp, err), w)

/-! Exit status codes, from the `iota` block of the source. The misspelling
`Securitry` is the source's. -/

def ExitSuccess : Nat := 0
def ExitAuthenticationFailure : Nat := 1
def ExitResourceGroupCreationFailure : Nat := 2
def ExitVirtualNetworkCreationFailure : Nat := 3
def ExitNetworkSecuritryGroupCreationFailure : Nat := 4
def ExitSecurityRuleCreationFailure : Nat := 5
def ExitSubnetCreationFailure : Nat := 6

/-- The inputs read during `init`: the four credential environment variables,
the command-line flags, and the outcomes of the external credential machinery
(`guid.Parse`, modelled as a function returning the canonical form on success,
`adal.NewOAuthConfig` and `adal.NewServicePrincipalToken`, modelled by their
optional errors). -/
structure InitEnv where
  subscriptionID : String
  clientID : String
  clientSecret : String
  tenantID : String
  helpFlag : Bool
  quietFlag : Bool
  pauseFlag : Bool
  delayFlag : Nat
  guidParse : String → Option String
  oauthConfigErr : Option String
  tokenErr : Option String

def missingAuthMsg (pretty envVar : String) : String :=
  "No value was provieded to act as the " ++ pretty
    ++ ". Set enviroment variable \"" ++ envVar ++ "\""

def uuidErrMsg (envVar : String) : String :=
  "argument '" ++ envVar ++ "' was not of type Uuid as expected"

/-- One credential-field check from `validateParameters`: a missing value
yields the missing-value error, an unparsable one the Uuid-format error. -/
def checkGuidField (g : String → Option String) (value pretty envVar : String) : List String :=
  if value = "" then [missingAuthMsg pretty envVar]
  else match g value with
    | none => [uuidErrMsg envVar]
    | some _ => []

/-- `validateParameters`: collect one error per missing or unparsable
credential value, in source order (tenant, subscription, client, secret).
Successful parses normalize the stored value, which no later claim reads, so
only the error list is modelled. -/
def validateParameters (ie : InitEnv) : List String :=
  checkGuidField ie.guidParse ie.tenantID "Azure Tenant ID" "AZURE_TENANT_ID"
  ++ checkGuidField ie.guidParse ie.subscriptionID "Azure Subscription ID" "AZURE_SUBSCRIPTION_ID"
  ++ checkGuidField ie.guidParse ie.clientID "Azure Client ID" "AZURE_CLIENT_ID"
  ++ (if ie.clientSecret = "" then [missingAuthMsg "Azure Client Secret" "AZURE_CLIENT_SECRET"]
      else [])

/-- The token produced by `init`: `none` whenever `init` returns early (help
flag, validation errors, OAuth-config error, token-acquisition error), `some`
otherwise. The global `token` is nil in `main` exactly when this is `none`. -/
def initToken (ie : InitEnv) : Option Unit :=
  if ie.helpFlag then none
  else if validateParameters ie ≠ [] then none
  else if ie.oauthConfigErr ≠ none then none
  else match ie.tokenErr with
    | some _ => none
    | none => some ()

/-- The outcome of every remote operation `main` may issue, fixed up front:
one field per call site, in program order. -/
structure Env where
  listOutcome : Outcome
  listNames : List String
  rgCreateErr : Option String
  rgDeleteOutcome : Outcome
  vnetOutcome : Outcome
  nsgCreateFrontend : Outcome
  nsgCreateBackend : Outcome
  nsgGetFrontendErr : Option String
  nsgGetFrontendName : String
  nsgGetBackendErr : Option String
  nsgGetBackendName : String
  subnetFrontendOutcome : Outcome
  subnetBackendOutcome : Outcome
  rule1Outcome : Outcome
  rule2Outcome : Outcome
  rule3Outcome : Outcome
  rule4Outcome : Outcome
deriving Repr

/-- `getUniqueResourceGroupName` as executed: it issues the listing call, then
computes as the pure function does. -/
def getUniqueResourceGroupNameM (env : Env) (w : W) : Except String String × W :=
  (getUniqueResourceGroupName env.listOutcome.err env.listOutcome.resp.statusCode env.listNames,
    w.call Call.listGroups)

/-- `createResourceGroup`: derive the name (surfacing its error on stderr),
announce the creation, issue it, and report SUCCESS, or FAILED plus the error
detail; a creation error makes it return the error (with an empty name, which
`main` never uses because it returns before the deferred delete exists). -/
def createResourceGroup (env : Env) (w : W) : Except String String × W :=
  match getUniqueResourceGroupNameM env w with
  | (Except.error e, w) => (Except.error e, w.emitErr e)
  | (Except.ok name, w) =>
    let w := w.emitOut ("Creating Resource Group '" ++ name ++ "'...")
    let w := w.call (Call.createGroup name)
    match env.rgCreateErr with
    | some e => (Except.error e, ((w.emitOut "FAILED").emitErr ("\tError: " ++ e ++ "\n")))
    | none => (Except.ok name, w.emitOut "SUCCESS")

/-- `deleteResourceGroup`: the deletion wrapped in `executeWithStatus`. -/
def deleteResourceGroup (env : Env) (name : String) (w : W) : Option String × W :=
  let (re, w) := executeWithStatus (remoteOp (Call.deleteGroup name) env.rgDeleteOutcome)
    ("Deleting Resource Group '" ++ name ++ "'") w
  (re.2, w)

/-- `createVirtualNetwork`: the fixed-name virtual network creation wrapped in
`executeWithStatus`; returns the network name and the operation's error. -/
def createVirtualNetwork (env : Env) (rg : String) (w : W) : String × Option String × W :=
  let (re, w) := executeWithStatus (remoteOp (Call.createVNet rg "sampleVirtualNetwork") env.vnetOutcome)
    "Creating Virtual Network 'sampleVirtualNetwork'" w
  ("sampleVirtualNetwork", re.2, w)

/-- `createNetworkSecurityGroup`: creation wrapped in `executeWithStatus`,
whose error is discarded by the shadowing `result, err := client.Get(...)`;
the function's error is the Get's error, and its result the fetched group. -/
def createNetworkSecurityGroup (createO : Outcome) (getErr : Option String)
    (getName : String) (rg name : String) (w : W) : Except String String × W :=
  let (_, w) := executeWithStatus (remoteOp (Call.createNSG rg name) createO)
    ("Creating Network Security Group '" ++ name ++ "'") w
  let w := w.call (Call.getNSG rg name)
  match getErr with
  | some e => (Except.error e, w)
  | none => (Except.ok getName, w)

/-- The optional pause or delay before cleanup; output only. -/
def pauseOrDelay (ie : InitEnv) (w : W) : W :=
  if ie.pauseFlag then w.emitOut "Press Enter to continue..."
  else if ie.delayFlag > 0 then
    (w.emitOut ("Delaying " ++ toString ie.delayFlag ++ " seconds...")).emitOut "DONE"
  else w

/-- The tail of `main` after the first security rule's error check passed:
the HTTP rule's result is discarded, the following `if nil != err` re-examines
the stale error `errStale` from the first rule, and the SQL and outbound-deny
rules are issued without any check, followed by the optional pause or delay. -/
def lateRules (ie : InitEnv) (env : Env) (errStale : Option String)
    (rg frontName backName : String) (w : W) : Nat × W :=
  let (_, w) := executeWithStatus (remoteOp (Call.createRule rg frontName "ALLOW-HTTP") env.rule2Outcome)
    "Creating Security Rule 'Allow HTTP'" w
  if errStale ≠ none then (ExitSecurityRuleCreationFailure, w)
  else
    let (_, w) := executeWithStatus (remoteOp (Call.createRule rg backName "ALLOW-SQL") env.rule3Outcome)
      "Creating Security Rule \"ALLOW-SQL\"" w
    let (_, w) := executeWithStatus (remoteOp (Call.createRule rg backName "DENY-OUT") env.rule4Outcome)
      "Creating Security Rule \"DENY-OUT\"" w
    let w := pauseOrDelay ie w
    (ExitSuccess, w)

/-- The body of `main` between the deferred-deletion registration and the end
of the function: virtual network, the two security groups, the two subnets and
the four security rules, with the exit status each failure assigns. -/
def mainAfterResourceGroup (ie : InitEnv) (env : Env) (rg : String) (w : W) : Nat × W :=
  let (vname, verr, w) := createVirtualNetwork env rg w
  if verr ≠ none then (ExitVirtualNetworkCreationFailure, w)
  else
    match createNetworkSecurityGroup env.nsgCreateFrontend env.nsgGetFrontendErr
        env.nsgGetFrontendName rg "frontend" w with
    | (Except.error _, w) => (ExitNetworkSecuritryGroupCreationFailure, w)
    | (Except.ok frontName, w) =>
      match createNetworkSecurityGroup env.nsgCreateBackend env.nsgGetBackendErr
          env.nsgGetBackendName rg "backend" w with
      | (Except.error _, w) => (ExitNetworkSecuritryGroupCreationFailure, w)
      | (Except.ok backName, w) =>
        let (rs, w) := executeWithStatus (remoteOp (Call.createSubnet rg vname "frontendSubnet")
          env.subnetFrontendOutcome) "Creating Subnet 'frontendSubnet'" w
        if rs.2 ≠ none then (ExitSubnetCreationFailure, w)
        else
          let (rs2, w) := executeWithStatus (remoteOp (Call.createSubnet rg vname "backendSubnet")
            env.subnetBackendOutcome) "Creating Subnet 'backendSubnet'" w
          if rs2.2 ≠ none then (ExitSubnetCreationFailure, w)
          else
            let (r1, w) := executeWithStatus (remoteOp (Call.createRule rg frontName "ALLOW-SSH")
              env.rule1Outcome) "Creating Security Rule 'Allow SSH'" w
            if r1.2 ≠ none then (ExitSecurityRuleCreationFailure, w)
            else lateRules ie env r1.2 rg frontName backName w

/-- `main`: the help short-circuit, the token check, resource-group creation
with its deferred deletion, and the provisioning sequence. The result is the
process exit status and the final world. -/
def mainModel (ie : InitEnv) (env : Env) : Nat × W :=
  let w0 : W := ⟨[], [], []⟩
  if ie.helpFlag then (ExitSuccess, w0)
  else match initToken ie with
  | none => (ExitAuthenticationFailure, w0.emitErr "Fatal Error: Authentication Failed.")
  | some _ =>
    match createResourceGroup env w0 with
    | (Except.error _, w) => (ExitResourceGroupCreationFailure, w)
    | (Except.ok rgName, w) =>
      let (code, w) := mainAfterResourceGroup ie env rgName w
      let (_, w) := deleteResourceGroup env rgName w
      (code, w)

/-! Derived observations: call counting and call-kind projections. -/

def Call.isCreateGroup : Call → Bool
  | Call.createGroup _ => true
  | _ => false

def Call.isDeleteGroup : Call → Bool
  | Call.deleteGroup _ => true
  | _ => false

def Call.isCreateVNet : Call → Bool
  | Call.createVNet _ _ => true
  | _ => false

def Call.isCreateNSG : Call → Bool
  | Call.createNSG _ _ => true
  | _ => false

def Call.isCreateSubnet : Call → Bool
  | Call.createSubnet _ _ _ => true
  | _ => false

def Call.isCreateRule : Call → Bool
  | Call.createRule _ _ _ => true
  | _ => false

/-- The number of calls in a trace satisfying a predicate. -/
def countIn (t : List Call) (p : Call → Bool) : Nat := (t.filter p).length

@[simp] theorem countIn_nil (p : Call → Bool) : countIn [] p = 0 := rfl

@[simp] theorem countIn_append (s t : List Call) (p : Call → Bool) :
    countIn (s ++ t) p = countIn s p + countIn t p := by
  simp [countIn, List.filter_append]

@[simp] theorem countIn_cons (c : Call) (t : List Call) (p : Call → Bool) :
    countIn (c :: t) p = (if p c then 1 else 0) + countIn t p := by
  simp only [countIn, List.filter_cons]
  split <;> simp [Nat.add_comm]

/-- The kind of a remote call, forgetting its arguments. -/
inductive CallKind where
  | list | createRG | deleteRG | vnet | nsg | getNsg | subnet | rule
deriving DecidableEq, Repr

def Call.kind : Call → CallKind
  | Call.listGroups => CallKind.list
  | Call.createGroup _ => CallKind.createRG
  | Call.deleteGroup _ => CallKind.deleteRG
  | Call.createVNet _ _ => CallKind.vnet
  | Call.createNSG _ _ => CallKind.nsg
  | Call.getNSG _ _ => CallKind.getNsg
  | Call.createSubnet _ _ _ => CallKind.subnet
  | Call.createRule _ _ _ => CallKind.rule

/-- The sequence of creation and deletion kinds in a trace (listing and
security-group reads are projected away). -/
def provisioningKinds (t : List Call) : List CallKind :=
  (t.map Call.kind).filter
    (fun k => decide (k ≠ CallKind.list) && decide (k ≠ CallKind.getNsg))

@[simp] theorem W.calls_ite (p : Prop) [Decidable p] (a b : W) :
    (if p then a else b).calls = if p then a.calls else b.calls := by
  split <;> rfl

/-! Characterizations of the executor and of each stage helper. -/

theorem executeWithStatus_remoteOp_eq (c : Call) (o : Outcome) (m : String) (w : W) :
    executeWithStatus (remoteOp c o) m w =
      ((o.resp, o.err),
        if o.err = none ∧ o.resp.statusCode = 200
        then ((w.emitOut (m ++ "...")).call c).emitOut "SUCCESS"
        else (((w.emitOut (m ++ "...")).call c).emitOut "FAILED").emitErr
          (getFailureStatus o.err o.resp)) := by
  simp only [executeWithStatus, remoteOp]
  split <;> simp_all

theorem createResourceGroup_fst (env : Env) (w : W) :
    (createResourceGroup env w).1 =
      match env.listOutcome.err with
      | some e => Except.error e
      | none =>
        if env.listOutcome.resp.statusCode = 200 then
          match env.rgCreateErr with
          | some e => Except.error e
          | none => Except.ok (chooseUniqueName env.listNames)
        else Except.error ("Bad response: " ++ toString env.listOutcome.resp.statusCode) := by
  cases hl : env.listOutcome.err with
  | some e => simp [createResourceGroup, getUniqueResourceGroupNameM, getUniqueResourceGroupName, hl]
  | none =>
    by_cases hs : env.listOutcome.resp.statusCode = 200
    · cases hc : env.rgCreateErr with
      | some e =>
        simp [createResourceGroup, getUniqueResourceGroupNameM, getUniqueResourceGroupName, hl, hs, hc]
      | none =>
        simp [createResourceGroup, getUniqueResourceGroupNameM, getUniqueResourceGroupName, hl, hs, hc]
    · simp [createResourceGroup, getUniqueResourceGroupNameM, getUniqueResourceGroupName, hl, hs]

theorem createResourceGroup_calls (env : Env) (w : W) :
    (createResourceGroup env w).2.calls =
      w.calls ++
        (if env.listOutcome.err ≠ none ∨ env.listOutcome.resp.statusCode ≠ 200
         then [Call.listGroups]
         else [Call.listGroups, Call.createGroup (chooseUniqueName env.listNames)]) := by
  cases hl : env.listOutcome.err with
  | some e => simp [createResourceGroup, getUniqueResourceGroupNameM, getUniqueResourceGroupName, hl]
  | none =>
    by_cases hs : env.listOutcome.resp.statusCode = 200
    · cases hc : env.rgCreateErr with
      | some e =>
        simp [createResourceGroup, getUniqueResourceGroupNameM, getUniqueResourceGroupName, hl, hs, hc]
      | none =>
        simp [createResourceGroup, getUniqueResourceGroupNameM, getUniqueResourceGroupName, hl, hs, hc]
    · simp [createResourceGroup, getUniqueResourceGroupNameM, getUniqueResourceGroupName, hl, hs]

theorem deleteResourceGroup_calls (env : Env) (name : String) (w : W) :
    (deleteResourceGroup env name w).2.calls = w.calls ++ [Call.deleteGroup name] := by
  simp [deleteResourceGroup, executeWithStatus_remoteOp_eq]

theorem createNetworkSecurityGroup_eq (createO : Outcome) (getErr : Option String)
    (getName : String) (rg name : String) (w : W) :
    createNetworkSecurityGroup createO getErr getName rg name w =
      ((match getErr with
        | some e => Except.error e
        | none => Except.ok getName),
       ((if createO.err = none ∧ createO.resp.statusCode = 200
         then ((w.emitOut (("Creating Network Security Group '" ++ name ++ "'") ++ "...")).call
            (Call.createNSG rg name)).emitOut "SUCCESS"
         else (((w.emitOut (("Creating Network Security Group '" ++ name ++ "'") ++ "...")).call
            (Call.createNSG rg name)).emitOut "FAILED").emitErr
            (getFailureStatus createO.err createO.resp)).call (Call.getNSG rg name))) := by
  cases getErr <;> simp [createNetworkSecurityGroup, executeWithStatus_remoteOp_eq]

/-- Exit status assigned by the post-resource-group stages, by the first
stage whose observed error is non-absent, in orchestration order. -/
def afterExitFormula (env : Env) : Nat :=
  if env.vnetOutcome.err ≠ none then ExitVirtualNetworkCreationFailure
  else if env.nsgGetFrontendErr ≠ none then ExitNetworkSecuritryGroupCreationFailure
  else if env.nsgGetBackendErr ≠ none then ExitNetworkSecuritryGroupCreationFailure
  else if env.subnetFrontendOutcome.err ≠ none then ExitSubnetCreationFailure
  else if env.subnetBackendOutcome.err ≠ none then ExitSubnetCreationFailure
  else if env.rule1Outcome.err ≠ none then ExitSecurityRuleCreationFailure
  else ExitSuccess

/-- Remote calls issued by the post-resource-group stages. -/
def afterCallsFormula (env : Env) (rg : String) : List Call :=
  [Call.createVNet rg "sampleVirtualNetwork"] ++
  (if env.vnetOutcome.err ≠ none then [] else
    [Call.createNSG rg "frontend", Call.getNSG rg "frontend"] ++
    (if env.nsgGetFrontendErr ≠ none then [] else
      [Call.createNSG rg "backend", Call.getNSG rg "backend"] ++
      (if env.nsgGetBackendErr ≠ none then [] else
        [Call.createSubnet rg "sampleVirtualNetwork" "frontendSubnet"] ++
        (if env.subnetFrontendOutcome.err ≠ none then [] else
          [Call.createSubnet rg "sampleVirtualNetwork" "backendSubnet"] ++
          (if env.subnetBackendOutcome.err ≠ none then [] else
            [Call.createRule rg env.nsgGetFrontendName "ALLOW-SSH"] ++
            (if env.rule1Outcome.err ≠ none then [] else
              [Call.createRule rg env.nsgGetFrontendName "ALLOW-HTTP",
               Call.createRule rg env.nsgGetBackendName "ALLOW-SQL",
               Call.createRule rg env.nsgGetBackendName "DENY-OUT"]))))))

/-- Modelled from the spec: each exit code corresponds to the stage at which
the orchestrator first observed failure — help and a missing token first,
then resource-group naming/creation, then the post-resource-group stages in
orchestration order as enumerated by `afterExitFormula`. -/
def firstObservedFailureCode (ie : InitEnv) (env : Env) : Nat :=
  if ie.helpFlag then ExitSuccess
  else if initToken ie = none then ExitAuthenticationFailure
  else if env.listOutcome.err ≠ none ∨ env.listOutcome.resp.statusCode ≠ 200
      ∨ env.rgCreateErr ≠ none then ExitResourceGroupCreationFailure
  else afterExitFormula env

/-- The full trace of remote calls issued by a run. -/
def traceFormula (ie : InitEnv) (env : Env) : List Call :=
  if ie.helpFlag then []
  else if initToken ie = none then []
  else if env.listOutcome.err ≠ none ∨ env.listOutcome.resp.statusCode ≠ 200 then
    [Call.listGroups]
  else if env.rgCreateErr ≠ none then
    [Call.listGroups, Call.createGroup (chooseUniqueName env.listNames)]
  else
    [Call.listGroups, Call.createGroup (chooseUniqueName env.listNames)]
      ++ afterCallsFormula env (chooseUniqueName env.listNames)
      ++ [Call.deleteGroup (chooseUniqueName env.listNames)]

theorem mainAfterResourceGroup_exit (ie : InitEnv) (env : Env) (rg : String) (w : W) :
    (mainAfterResourceGroup ie env rg w).1 = afterExitFormula env := by
  cases hv : env.vnetOutcome.err with
  | some e =>
    simp [mainAfterResourceGroup, createVirtualNetwork, executeWithStatus_remoteOp_eq,
      afterExitFormula, hv]
  | none =>
  cases hgf : env.nsgGetFrontendErr with
  | some e =>
    simp [mainAfterResourceGroup, createVirtualNetwork, createNetworkSecurityGroup_eq,
      executeWithStatus_remoteOp_eq, afterExitFormula, hv, hgf]
  | none =>
  cases hgb : env.nsgGetBackendErr with
  | some e =>
    simp [mainAfterResourceGroup, createVirtualNetwork, createNetworkSecurityGroup_eq,
      executeWithStatus_remoteOp_eq, afterExitFormula, hv, hgf, hgb]
  | none =>
  cases hsf : env.subnetFrontendOutcome.err with
  | some e =>
    simp [mainAfterResourceGroup, createVirtualNetwork, createNetworkSecurityGroup_eq,
      executeWithStatus_remoteOp_eq, afterExitFormula, hv, hgf, hgb, hsf]
  | none =>
  cases hsb : env.subnetBackendOutcome.err with
  | some e =>
    simp [mainAfterResourceGroup, createVirtualNetwork, createNetworkSecurityGroup_eq,
      executeWithStatus_remoteOp_eq, afterExitFormula, hv, hgf, hgb, hsf, hsb]
  | none =>
  cases hr1 : env.rule1Outcome.err with
  | some e =>
    simp [mainAfterResourceGroup, createVirtualNetwork, createNetworkSecurityGroup_eq,
      executeWithStatus_remoteOp_eq, afterExitFormula, hv, hgf, hgb, hsf, hsb, hr1]
  | none =>
    simp [mainAfterResourceGroup, createVirtualNetwork, createNetworkSecurityGroup_eq,
      lateRules, executeWithStatus_remoteOp_eq, afterExitFormula, hv, hgf, hgb, hsf, hsb, hr1]

theorem mainAfterResourceGroup_calls (ie : InitEnv) (env : Env) (rg : String) (w : W) :
    (mainAfterResourceGroup ie env rg w).2.calls = w.calls ++ afterCallsFormula env rg := by
  cases hv : env.vnetOutcome.err with
  | some e =>
    simp [mainAfterResourceGroup, createVirtualNetwork, executeWithStatus_remoteOp_eq,
      afterCallsFormula, hv]
  | none =>
  cases hgf : env.nsgGetFrontendErr with
  | some e =>
    simp [mainAfterResourceGroup, createVirtualNetwork, createNetworkSecurityGroup_eq,
      executeWithStatus_remoteOp_eq, afterCallsFormula, hv, hgf]
  | none =>
  cases hgb : env.nsgGetBackendErr with
  | some e =>
    simp [mainAfterResourceGroup, createVirtualNetwork, createNetworkSecurityGroup_eq,
      executeWithStatus_remoteOp_eq, afterCallsFormula, hv, hgf, hgb]
  | none =>
  cases hsf : env.subnetFrontendOutcome.err with
  | some e =>
    simp [mainAfterResourceGroup, createVirtualNetwork, createNetworkSecurityGroup_eq,
      executeWithStatus_remoteOp_eq, afterCallsFormula, hv, hgf, hgb, hsf]
  | none =>
  cases hsb : env.subnetBackendOutcome.err with
  | some e =>
    simp [mainAfterResourceGroup, createVirtualNetwork, createNetworkSecurityGroup_eq,
      executeWithStatus_remoteOp_eq, afterCallsFormula, hv, hgf, hgb, hsf, hsb]
  | none =>
  cases hr1 : env.rule1Outcome.err with
  | some e =>
    simp [mainAfterResourceGroup, createVirtualNetwork, createNetworkSecurityGroup_eq,
      executeWithStatus_remoteOp_eq, afterCallsFormula, hv, hgf, hgb, hsf, hsb, hr1]
  | none =>
    simp [mainAfterResourceGroup, createVirtualNetwork, createNetworkSecurityGroup_eq,
      lateRules, pauseOrDelay, executeWithStatus_remoteOp_eq, afterCallsFormula,
      hv, hgf, hgb, hsf, hsb, hr1]

theorem mainModel_exit (ie : InitEnv) (env : Env) :
    (mainModel ie env).1 = firstObservedFailureCode ie env := by
  cases hh : ie.helpFlag with
  | true => simp [mainModel, firstObservedFailureCode, hh]
  | false =>
  cases ht : initToken ie with
  | none => simp [mainModel, firstObservedFailureCode, hh, ht]
  | some u =>
  cases hl : env.listOutcome.err with
  | some e =>
    simp [mainModel, firstObservedFailureCode, createResourceGroup,
      getUniqueResourceGroupNameM, getUniqueResourceGroupName, hh, ht, hl]
  | none =>
  by_cases hs : env.listOutcome.resp.statusCode = 200
  · cases hc : env.rgCreateErr with
    | some e =>
      simp [mainModel, firstObservedFailureCode, createResourceGroup,
        getUniqueResourceGroupNameM, getUniqueResourceGroupName, hh, ht, hl, hs, hc]
    | none =>
      rcases hA : mainAfterResourceGroup ie env (chooseUniqueName env.listNames) ⟨[Call.listGroups,
        Call.createGroup (chooseUniqueName env.listNames)],
        ["Creating Resource Group '" ++ chooseUniqueName env.listNames ++ "'...", "SUCCESS"], []⟩
        with ⟨code, w2⟩
      have hcode : code = afterExitFormula env := by
        have h := mainAfterResourceGroup_exit ie env (chooseUniqueName env.listNames)
          ⟨[Call.listGroups, Call.createGroup (chooseUniqueName env.listNames)],
           ["Creating Resource Group '" ++ chooseUniqueName env.listNames ++ "'...", "SUCCESS"], []⟩
        rw [hA] at h
        exact h
      rcases hD : deleteResourceGroup env (chooseUniqueName env.listNames) w2 with ⟨de, w3⟩
      simp [mainModel, firstObservedFailureCode, createResourceGroup,
        getUniqueResourceGroupNameM, getUniqueResourceGroupName, hh, ht, hl, hs, hc,
        W.emitOut, W.call, hA, hD, hcode]
  · simp [mainModel, firstObservedFailureCode, createResourceGroup,
      getUniqueResourceGroupNameM, getUniqueResourceGroupName, hh, ht, hl, hs]

theorem mainModel_calls (ie : InitEnv) (env : Env) :
    (mainModel ie env).2.calls = traceFormula ie env := by
  cases hh : ie.helpFlag with
  | true => simp [mainModel, traceFormula, hh]
  | false =>
  cases ht : initToken ie with
  | none => simp [mainModel, traceFormula, hh, ht]
  | some u =>
  cases hl : env.listOutcome.err with
  | some e =>
    simp [mainModel, traceFormula, createResourceGroup,
      getUniqueResourceGroupNameM, getUniqueResourceGroupName, hh, ht, hl]
  | none =>
  by_cases hs : env.listOutcome.resp.statusCode = 200
  · cases hc : env.rgCreateErr with
    | some e =>
      simp [mainModel, traceFormula, createResourceGroup,
        getUniqueResourceGroupNameM, getUniqueResourceGroupName, W.emitOut, W.call,
        hh, ht, hl, hs, hc]
    | none =>
      rcases hA : mainAfterResourceGroup ie env (chooseUniqueName env.listNames) ⟨[Call.listGroups,
        Call.createGroup (chooseUniqueName env.listNames)],
        ["Creating Resource Group '" ++ chooseUniqueName env.listNames ++ "'...", "SUCCESS"], []⟩
        with ⟨code, w2⟩
      have hw2 : w2.calls = [Call.listGroups, Call.createGroup (chooseUniqueName env.listNames)]
          ++ afterCallsFormula env (chooseUniqueName env.listNames) := by
        have h := mainAfterResourceGroup_calls ie env (chooseUniqueName env.listNames)
          ⟨[Call.listGroups, Call.createGroup (chooseUniqueName env.listNames)],
           ["Creating Resource Group '" ++ chooseUniqueName env.listNames ++ "'...", "SUCCESS"], []⟩
        rw [hA] at h
        exact h
      rcases hD : deleteResourceGroup env (chooseUniqueName env.listNames) w2 with ⟨de, w3⟩
      have hw3 : w3.calls = w2.calls ++ [Call.deleteGroup (chooseUniqueName env.listNames)] := by
        have h := deleteResourceGroup_calls env (chooseUniqueName env.listNames) w2
        rw [hD] at h
        exact h
      simp [mainModel, traceFormula, createResourceGroup,
        getUniqueResourceGroupNameM, getUniqueResourceGroupName, W.emitOut, W.call,
        hh, ht, hl, hs, hc, hA, hD, hw3, hw2]
  · simp [mainModel, traceFormula, createResourceGroup,
      getUniqueResourceGroupNameM, getUniqueResourceGroupName, hh, ht, hl, hs]

/-! Concrete inputs used by counterexamples and witnesses. -/

/-- The names the sample itself produces over its first twelve runs: the bare
stem and the contiguous suffixed run 0..10. -/
def elevenRun : List String :=
  ["networkSecurityGroupSample", "networkSecurityGroupSample0",
   "networkSecurityGroupSample1", "networkSecurityGroupSample2",
   "networkSecurityGroupSample3", "networkSecurityGroupSample4",
   "networkSecurityGroupSample5", "networkSecurityGroupSample6",
   "networkSecurityGroupSample7", "networkSecurityGroupSample8",
   "networkSecurityGroupSample9", "networkSecurityGroupSample10"]

/-- The bare stem, the run 0..10, and 12: the first missing integer suffix
is 11. -/
def gappedRun : List String := elevenRun ++ ["networkSecurityGroupSample12"]

def responseOK : Response := ⟨true, 200, "200 OK"⟩

def okOutcome : Outcome := ⟨responseOK, none⟩

def respServerError : Response := ⟨true, 500, "500 Internal Server Error"⟩

def errOutcome : Outcome := ⟨respServerError, some "boom"⟩

/-- An initialization environment with well-formed credentials and a parser
and token machinery that succeed. -/
def ieAll : InitEnv :=
  ⟨"subscription-guid", "client-guid", "secret", "tenant-guid",
    false, false, false, 0, fun s => some s, none, none⟩

/-- A remote environment in which every remote call succeeds. -/
def envAll : Env :=
  ⟨okOutcome, [], none, okOutcome, okOutcome, okOutcome, okOutcome,
    none, "frontend", none, "backend", okOutcome, okOutcome,
    okOutcome, okOutcome, okOutcome, okOutcome⟩

/-- An outcome with no error and a 200 status. -/
abbrev Outcome.ok (o : Outcome) : Prop := o.err = none ∧ o.resp.statusCode = 200

/-- Every remote operation of the run succeeds. -/
abbrev Env.allSucceed (env : Env) : Prop :=
  env.listOutcome.ok ∧ env.rgCreateErr = none ∧ env.rgDeleteOutcome.ok
  ∧ env.vnetOutcome.ok ∧ env.nsgCreateFrontend.ok ∧ env.nsgCreateBackend.ok
  ∧ env.nsgGetFrontendErr = none ∧ env.nsgGetBackendErr = none
  ∧ env.subnetFrontendOutcome.ok ∧ env.subnetBackendOutcome.ok
  ∧ env.rule1Outcome.ok ∧ env.rule2Outcome.ok ∧ env.rule3Outcome.ok ∧ env.rule4Outcome.ok

/-- The same environment with the outcomes of the three security-rule
creations after the first replaced. -/
def setLateRules (env : Env) (r2 r3 r4 : Outcome) : Env :=
  { env with rule2Outcome := r2, rule3Outcome := r3, rule4Outcome := r4 }

example : chooseUniqueName [] = "networkSecurityGroupSample" := by decide
example : initToken ieAll = some () := by decide

/-! The claims. -/

/-- C1: the claim that the name returned by `getUniqueResourceGroupName`
never equals an existing name is refuted by the code. On the very names the
sample itself creates over twelve runs — the stem plus suffixes 0..10 — the
lexicographic sort places `...10` before `...2`, the positional scan
mismatches at index 2, and the allocator returns `...2`, which already
exists: the listing call succeeded with status 200, yet the returned name
collides. -/
theorem allocator_returns_colliding_name :
    getUniqueResourceGroupName none 200 elevenRun
      = Except.ok "networkSecurityGroupSample2"
    ∧ "networkSecurityGroupSample2" ∈ elevenRun := by
  refine ⟨rfl, by decide⟩

/-- C5: the claim that a contiguous run `stem0..stemK` makes the allocator
return `stem(K+1)` for every K ≥ 0 is refuted at K = 10: the code returns
`networkSecurityGroupSample2` (an existing name) instead of
`networkSecurityGroupSample11`, because the lexicographically sorted list no
longer agrees with numeric suffix order. -/
theorem dense_run_allocator_wrong_at_ten :
    chooseUniqueName elevenRun = "networkSecurityGroupSample2"
    ∧ chooseUniqueName elevenRun ≠ "networkSecurityGroupSample11" := by
  refine ⟨rfl, by decide⟩

/-- C9: the claim that a gapped suffix set makes the allocator return the
first missing integer suffix is refuted on the set {stem, stem0..stem10,
stem12}: the first missing suffix is 11, but the code returns
`networkSecurityGroupSample2`, a name already in the set. -/
theorem gapped_run_allocator_not_first_missing :
    chooseUniqueName gappedRun = "networkSecurityGroupSample2"
    ∧ "networkSecurityGroupSample2" ∈ gappedRun
    ∧ chooseUniqueName gappedRun ≠ "networkSecurityGroupSample11" := by
  refine ⟨rfl, by decide, by decide⟩

theorem helpFlag_false_of_token (ie : InitEnv) (h : initToken ie = some ()) :
    ie.helpFlag = false := by
  cases hh : ie.helpFlag with
  | false => rfl
  | true => simp [initToken, hh] at h

theorem afterCallsFormula_deletes (env : Env) (rg : String) :
    countIn (afterCallsFormula env rg) Call.isDeleteGroup = 0 := by
  unfold afterCallsFormula
  split_ifs <;> simp [Call.isDeleteGroup]

theorem traceFormula_success (ie : InitEnv) (env : Env) (hh : ie.helpFlag = false)
    (htok : initToken ie = some ()) (hle : env.listOutcome.err = none)
    (hls : env.listOutcome.resp.statusCode = 200) (hcg : env.rgCreateErr = none) :
    traceFormula ie env =
      [Call.listGroups, Call.createGroup (chooseUniqueName env.listNames)]
        ++ afterCallsFormula env (chooseUniqueName env.listNames)
        ++ [Call.deleteGroup (chooseUniqueName env.listNames)] := by
  simp [traceFormula, hh, htok, hle, hls, hcg]

/-- C2 (amended: four security-rule creations, not five): when the token was
obtained and every remote call succeeds, the run exits with the success code
and issues exactly 1 resource-group creation, 1 virtual-network creation,
2 security-group creations, 2 subnet creations, 4 security-rule creations
and 1 resource-group deletion, in that relative order. -/
theorem run_all_success_counts_and_order (ie : InitEnv) (env : Env)
    (htok : initToken ie = some ()) (hok : Env.allSucceed env) :
    (mainModel ie env).1 = ExitSuccess
    ∧ countIn (mainModel ie env).2.calls Call.isCreateGroup = 1
    ∧ countIn (mainModel ie env).2.calls Call.isCreateVNet = 1
    ∧ countIn (mainModel ie env).2.calls Call.isCreateNSG = 2
    ∧ countIn (mainModel ie env).2.calls Call.isCreateSubnet = 2
    ∧ countIn (mainModel ie env).2.calls Call.isCreateRule = 4
    ∧ countIn (mainModel ie env).2.calls Call.isDeleteGroup = 1
    ∧ provisioningKinds (mainModel ie env).2.calls =
        [CallKind.createRG, CallKind.vnet, CallKind.nsg, CallKind.nsg,
         CallKind.subnet, CallKind.subnet, CallKind.rule, CallKind.rule,
         CallKind.rule, CallKind.rule, CallKind.deleteRG] := by
  obtain ⟨⟨hle, hls⟩, hcg, _, ⟨hve, _⟩, _, _, hgf, hgb, ⟨hsf, _⟩, ⟨hsb, _⟩,
    ⟨hr1, _⟩, _, _, _⟩ := hok
  have hh := helpFlag_false_of_token ie htok
  have htrace : (mainModel ie env).2.calls =
      [Call.listGroups, Call.createGroup (chooseUniqueName env.listNames),
       Call.createVNet (chooseUniqueName env.listNames) "sampleVirtualNetwork",
       Call.createNSG (chooseUniqueName env.listNames) "frontend",
       Call.getNSG (chooseUniqueName env.listNames) "frontend",
       Call.createNSG (chooseUniqueName env.listNames) "backend",
       Call.getNSG (chooseUniqueName env.listNames) "backend",
       Call.createSubnet (chooseUniqueName env.listNames) "sampleVirtualNetwork" "frontendSubnet",
       Call.createSubnet (chooseUniqueName env.listNames) "sampleVirtualNetwork" "backendSubnet",
       Call.createRule (chooseUniqueName env.listNames) env.nsgGetFrontendName "ALLOW-SSH",
       Call.createRule (chooseUniqueName env.listNames) env.nsgGetFrontendName "ALLOW-HTTP",
       Call.createRule (chooseUniqueName env.listNames) env.nsgGetBackendName "ALLOW-SQL",
       Call.createRule (chooseUniqueName env.listNames) env.nsgGetBackendName "DENY-OUT",
       Call.deleteGroup (chooseUniqueName env.listNames)] := by
    rw [mainModel_calls, traceFormula_success ie env hh htok hle hls hcg]
    simp [afterCallsFormula, hve, hgf, hgb, hsf, hsb, hr1]
  refine ⟨?_, ?_, ?_, ?_, ?_, ?_, ?_, ?_⟩
  · rw [mainModel_exit]
    simp [firstObservedFailureCode, afterExitFormula, hh, htok, hle, hls, hcg,
      hve, hgf, hgb, hsf, hsb, hr1]
  · rw [htrace]; simp [Call.isCreateGroup]
  · rw [htrace]; simp [Call.isCreateVNet]
  · rw [htrace]; simp [Call.isCreateNSG]
  · rw [htrace]; simp [Call.isCreateSubnet]
  · rw [htrace]; simp [Call.isCreateRule]
  · rw [htrace]; simp [Call.isDeleteGroup]
  · rw [htrace]
    simp [provisioningKinds, Call.kind, List.filter]

/-- C3: if resource-group creation fails no deletion call is ever issued;
if it succeeds (on a run that reaches it), exactly one deletion call for
that resource group is issued, and it is the final remote call of the run —
after all other stages have stopped, on every exit path. -/
theorem cleanup_fires_exactly_once_iff_created (ie : InitEnv) (env : Env) :
    (∀ e, (createResourceGroup env ⟨[], [], []⟩).1 = Except.error e →
        countIn (mainModel ie env).2.calls Call.isDeleteGroup = 0)
    ∧ (∀ n, initToken ie = some () →
        (createResourceGroup env ⟨[], [], []⟩).1 = Except.ok n →
        countIn (mainModel ie env).2.calls Call.isDeleteGroup = 1
        ∧ (mainModel ie env).2.calls.getLast? = some (Call.deleteGroup n)) := by
  constructor
  · intro e he
    rw [createResourceGroup_fst] at he
    rw [mainModel_calls]
    unfold traceFormula
    by_cases hh : ie.helpFlag
    · simp [hh]
    · by_cases ht : initToken ie = none
      · simp [hh, ht]
      · cases hl : env.listOutcome.err with
        | some el => simp [hh, ht, hl, Call.isDeleteGroup]
        | none =>
          by_cases hs : env.listOutcome.resp.statusCode = 200
          · cases hc : env.rgCreateErr with
            | some ec => simp [hh, ht, hl, hs, hc, Call.isDeleteGroup]
            | none => rw [hl, if_pos hs, hc] at he; simp at he
          · simp [hh, ht, hl, hs, Call.isDeleteGroup]
  · intro n htok hok
    have hh := helpFlag_false_of_token ie htok
    rw [createResourceGroup_fst] at hok
    cases hl : env.listOutcome.err with
    | some el => rw [hl] at hok; simp at hok
    | none =>
      rw [hl] at hok
      by_cases hs : env.listOutcome.resp.statusCode = 200
      · rw [if_pos hs] at hok
        cases hc : env.rgCreateErr with
        | some ec => rw [hc] at hok; simp at hok
        | none =>
          rw [hc] at hok
          have hn : chooseUniqueName env.listNames = n := by simpa using hok
          rw [mainModel_calls, traceFormula_success ie env hh htok hl hs hc, hn]
          constructor
          · simp [afterCallsFormula_deletes, Call.isDeleteGroup]
          · exact List.getLast?_concat _
      · rw [if_neg hs] at hok; simp at hok

/-- C4: for every operation outcome, `executeWithStatus` reports FAILED
exactly when the error is non-absent or the status code is not 200, and
SUCCESS exactly when the error is absent and the status code is 200; the
equation covers all four truth-table combinations at once. -/
theorem executor_reports_failure_iff (resp : Response) (err : Option String)
    (msg : String) (w : W) :
    (executeWithStatus (pureOp resp err) msg w).2.out =
      w.out ++ [msg ++ "..."]
        ++ (if err ≠ none ∨ resp.statusCode ≠ 200 then ["FAILED"] else ["SUCCESS"]) := by
  by_cases he : err = none <;> by_cases hs : resp.statusCode = 200 <;>
    simp [executeWithStatus, pureOp, he, hs]

/-- C10: `executeWithStatus` invokes the wrapped operation exactly once —
its result is the result of one invocation in the post-marker world, and the
remote calls it issues are exactly those of that single invocation — and it
hands the operation's (response, error) pair back unchanged. -/
theorem executor_invokes_once_outcome_unchanged
    (operation : W → (Response × Option String) × W) (msg : String) (w : W) :
    (executeWithStatus operation msg w).1
        = (operation (w.emitOut (msg ++ "..."))).1
    ∧ (executeWithStatus operation msg w).2.calls
        = (operation (w.emitOut (msg ++ "..."))).2.calls := by
  unfold executeWithStatus
  rcases h : operation (w.emitOut (msg ++ "...")) with ⟨⟨resp, err⟩, w2⟩
  dsimp only
  rw [h]
  by_cases hc : err = none ∧ resp.statusCode = 200 <;> simp [hc]
example : chooseUniqueName ["unrelated"] = "networkSecurityGroupSample" := by decide
example : chooseUniqueName ["networkSecurityGroupSample"] = "networkSecurityGroupSample0" := by decide
example :
    chooseUniqueName ["networkSecurityGroupSample", "networkSecurityGroupSample0",
      "networkSecurityGroupSample2"] = "networkSecurityGroupSample1" := by decide

/-- C6: the exit code equals the code of the stage at which the orchestrator
first observed failure (`firstObservedFailureCode`, one of the seven codes of
the closed enumeration), it never leaves that enumeration, and in particular
a virtual-network creation failure after a successful resource-group creation
yields the virtual-network-failure code with 1 resource-group creation, 0
security-group, subnet or rule creations, and 1 resource-group deletion. -/
theorem exit_codes_enumeration_and_vnet_failure (ie : InitEnv) (env : Env) :
    (mainModel ie env).1 = firstObservedFailureCode ie env
    ∧ (mainModel ie env).1 ≤ 6
    ∧ (initToken ie = some () → env.listOutcome.err = none →
        env.listOutcome.resp.statusCode = 200 → env.rgCreateErr = none →
        env.vnetOutcome.err ≠ none →
        (mainModel ie env).1 = ExitVirtualNetworkCreationFailure
        ∧ countIn (mainModel ie env).2.calls Call.isCreateGroup = 1
        ∧ countIn (mainModel ie env).2.calls Call.isCreateNSG = 0
        ∧ countIn (mainModel ie env).2.calls Call.isCreateSubnet = 0
        ∧ countIn (mainModel ie env).2.calls Call.isCreateRule = 0
        ∧ countIn (mainModel ie env).2.calls Call.isDeleteGroup = 1) := by
  refine ⟨mainModel_exit ie env, ?_, ?_⟩
  · rw [mainModel_exit]
    unfold firstObservedFailureCode afterExitFormula
    split_ifs <;>
      simp [ExitSuccess, ExitAuthenticationFailure, ExitResourceGroupCreationFailure,
        ExitVirtualNetworkCreationFailure, ExitNetworkSecuritryGroupCreationFailure,
        ExitSecurityRuleCreationFailure, ExitSubnetCreationFailure]
  · intro htok hle hls hcg hv
    have hh := helpFlag_false_of_token ie htok
    have htrace : (mainModel ie env).2.calls =
        [Call.listGroups, Call.createGroup (chooseUniqueName env.listNames),
         Call.createVNet (chooseUniqueName env.listNames) "sampleVirtualNetwork",
         Call.deleteGroup (chooseUniqueName env.listNames)] := by
      rw [mainModel_calls, traceFormula_success ie env hh htok hle hls hcg]
      simp [afterCallsFormula, hv]
    refine ⟨?_, ?_, ?_, ?_, ?_, ?_⟩
    · rw [mainModel_exit]
      simp [firstObservedFailureCode, afterExitFormula, hh, htok, hle, hls, hcg, hv]
    · rw [htrace]; simp [Call.isCreateGroup]
    · rw [htrace]; simp [Call.isCreateNSG]
    · rw [htrace]; simp [Call.isCreateSubnet]
    · rw [htrace]; simp [Call.isCreateRule]
    · rw [htrace]; simp [Call.isDeleteGroup]

/-- C7: replacing the outcomes of the three security-rule creations after the
first changes neither the exit status nor the trace of remote calls — their
failures are fire-and-forget — while a failure of the first rule creation
(with all earlier stages passing) sets the security-rule-creation-failure
code and leaves exactly one rule-creation call, skipping the rest. -/
theorem late_rule_failures_no_effect (ie : InitEnv) (env : Env) (r2 r3 r4 : Outcome) :
    ((mainModel ie (setLateRules env r2 r3 r4)).1 = (mainModel ie env).1
     ∧ (mainModel ie (setLateRules env r2 r3 r4)).2.calls = (mainModel ie env).2.calls)
    ∧ (initToken ie = some () → env.listOutcome.err = none →
        env.listOutcome.resp.statusCode = 200 → env.rgCreateErr = none →
        env.vnetOutcome.err = none → env.nsgGetFrontendErr = none →
        env.nsgGetBackendErr = none → env.subnetFrontendOutcome.err = none →
        env.subnetBackendOutcome.err = none → env.rule1Outcome.err ≠ none →
        (mainModel ie env).1 = ExitSecurityRuleCreationFailure
        ∧ countIn (mainModel ie env).2.calls Call.isCreateRule = 1) := by
  constructor
  · constructor
    · rw [mainModel_exit, mainModel_exit]
      simp [setLateRules, firstObservedFailureCode, afterExitFormula]
    · rw [mainModel_calls, mainModel_calls]
      simp [setLateRules, traceFormula, afterCallsFormula]
  · intro htok hle hls hcg hv hgf hgb hsf hsb hr1
    have hh := helpFlag_false_of_token ie htok
    constructor
    · rw [mainModel_exit]
      simp [firstObservedFailureCode, afterExitFormula, hh, htok, hle, hls, hcg,
        hv, hgf, hgb, hsf, hsb, hr1]
    · rw [mainModel_calls, traceFormula_success ie env hh htok hle hls hcg]
      simp [afterCallsFormula, hv, hgf, hgb, hsf, hsb, hr1, Call.isCreateRule]

/-- C8 (amended: provided the help flag is not set): a missing tenant-ID
environment value leaves the token unset, so the run exits with the
authentication-failure code having issued no remote call of any kind. -/
theorem missing_tenant_auth_failure (ie : InitEnv) (env : Env)
    (ht : ie.tenantID = "") (hh : ie.helpFlag = false) :
    (mainModel ie env).1 = ExitAuthenticationFailure
    ∧ (mainModel ie env).2.calls = [] := by
  have hv : validateParameters ie ≠ [] := by
    simp [validateParameters, checkGuidField, ht]
  have htok : initToken ie = none := by
    simp [initToken, hh, hv]
  constructor
  · rw [mainModel_exit]
    simp [firstObservedFailureCode, hh, htok]
  · rw [mainModel_calls]
    simp [traceFormula, hh, htok]

/-! Concrete environments for witnesses and counterexamples. -/

def envRGFail : Env := { envAll with rgCreateErr := some "rgboom" }

def envVnetFail : Env := { envAll with vnetOutcome := errOutcome }

def envRule1Fail : Env := { envAll with rule1Outcome := errOutcome }

def ieNoTenant : InitEnv := { ieAll with tenantID := "" }

def ieHelpNoTenant : InitEnv := { ieAll with tenantID := "", helpFlag := true }

/-- C2, counterexample to the claim as stated: in a run with a valid token in
which every remote call succeeds, the number of security-rule creation calls
is not 5 (the code contains four rule-creation call sites). -/
theorem run_all_success_not_five_rules :
    initToken ieAll = some () ∧ Env.allSucceed envAll
    ∧ countIn (mainModel ieAll envAll).2.calls Call.isCreateRule ≠ 5 := by
  refine ⟨by decide, by decide, by decide⟩

/-- Witness for C2's amended theorem at a concrete all-success run. -/
theorem run_all_success_counts_and_order_witness :
    (mainModel ieAll envAll).1 = ExitSuccess
    ∧ countIn (mainModel ieAll envAll).2.calls Call.isCreateGroup = 1
    ∧ countIn (mainModel ieAll envAll).2.calls Call.isCreateVNet = 1
    ∧ countIn (mainModel ieAll envAll).2.calls Call.isCreateNSG = 2
    ∧ countIn (mainModel ieAll envAll).2.calls Call.isCreateSubnet = 2
    ∧ countIn (mainModel ieAll envAll).2.calls Call.isCreateRule = 4
    ∧ countIn (mainModel ieAll envAll).2.calls Call.isDeleteGroup = 1
    ∧ provisioningKinds (mainModel ieAll envAll).2.calls =
        [CallKind.createRG, CallKind.vnet, CallKind.nsg, CallKind.nsg,
         CallKind.subnet, CallKind.subnet, CallKind.rule, CallKind.rule,
         CallKind.rule, CallKind.rule, CallKind.deleteRG] :=
  run_all_success_counts_and_order ieAll envAll (by decide) (by decide)

/-- Witness for C3 at two concrete runs: one whose resource-group creation
fails (no deletion), one all-success (one deletion, issued last). -/
theorem cleanup_fires_exactly_once_iff_created_witness :
    countIn (mainModel ieAll envRGFail).2.calls Call.isDeleteGroup = 0
    ∧ (countIn (mainModel ieAll envAll).2.calls Call.isDeleteGroup = 1
       ∧ (mainModel ieAll envAll).2.calls.getLast?
           = some (Call.deleteGroup "networkSecurityGroupSample")) :=
  ⟨(cleanup_fires_exactly_once_iff_created ieAll envRGFail).1 "rgboom" rfl,
   (cleanup_fires_exactly_once_iff_created ieAll envAll).2 "networkSecurityGroupSample"
     (by decide) rfl⟩

/-- Witness for C6's virtual-network-failure scenario at a concrete run. -/
theorem exit_codes_enumeration_and_vnet_failure_witness :
    (mainModel ieAll envVnetFail).1 = ExitVirtualNetworkCreationFailure
    ∧ countIn (mainModel ieAll envVnetFail).2.calls Call.isCreateGroup = 1
    ∧ countIn (mainModel ieAll envVnetFail).2.calls Call.isCreateNSG = 0
    ∧ countIn (mainModel ieAll envVnetFail).2.calls Call.isCreateSubnet = 0
    ∧ countIn (mainModel ieAll envVnetFail).2.calls Call.isCreateRule = 0
    ∧ countIn (mainModel ieAll envVnetFail).2.calls Call.isDeleteGroup = 1 :=
  (exit_codes_enumeration_and_vnet_failure ieAll envVnetFail).2.2
    (by decide) (by decide) (by decide) (by decide) (by decide)

/-- Witness for C7 at a concrete run whose first rule creation fails, with
all three later rule outcomes replaced by failures. -/
theorem late_rule_failures_no_effect_witness :
    ((mainModel ieAll (setLateRules envRule1Fail errOutcome errOutcome errOutcome)).1
        = (mainModel ieAll envRule1Fail).1
     ∧ (mainModel ieAll (setLateRules envRule1Fail errOutcome errOutcome errOutcome)).2.calls
        = (mainModel ieAll envRule1Fail).2.calls)
    ∧ ((mainModel ieAll envRule1Fail).1 = ExitSecurityRuleCreationFailure
       ∧ countIn (mainModel ieAll envRule1Fail).2.calls Call.isCreateRule = 1) :=
  ⟨(late_rule_failures_no_effect ieAll envRule1Fail errOutcome errOutcome errOutcome).1,
   (late_rule_failures_no_effect ieAll envRule1Fail errOutcome errOutcome errOutcome).2
     (by decide) (by decide) (by decide) (by decide) (by decide) (by decide) (by decide)
     (by decide) (by decide) (by decide)⟩

/-- C8, counterexample to the claim as stated: with the tenant ID absent but
the help flag set, the process exits with the success code, not the
authentication-failure code. -/
theorem missing_tenant_help_run_exits_zero :
    ¬ ((mainModel ieHelpNoTenant envAll).1 = ExitAuthenticationFailure
       ∧ (mainModel ieHelpNoTenant envAll).2.calls = []) := by
  decide

/-- Witness for C8's amended theorem at a concrete flagless run with the
tenant ID absent. -/
theorem missing_tenant_auth_failure_witness :
    (mainModel ieNoTenant envAll).1 = ExitAuthenticationFailure
    ∧ (mainModel ieNoTenant envAll).2.calls = [] :=
  missing_tenant_auth_failure ieNoTenant envAll rfl rfl

end NsgSample
